import Mathlib

/-!
Verification development for the `asa_ros` node of the
`azure_spatial_anchors_ros` repository.

The repository ships the interface header `asa_ros/asa_ros_node.h`; the
member-function bodies live in a translation unit that is not part of the
sources available here, so the operational behaviour of each member is
modelled from the repository specification and the doc comments in the
header.  The node is pure glue: it marshals data between ROS topics and
the external Azure Spatial Anchors SDK, keeps a handful of configuration
flags, and reads and writes a single cache file holding the last created
anchor ID.

The model is a straightforward state machine: `NodeState` carries the
member fields of `AsaRosNode` together with an explicit file system (a map
from paths to file contents), the lists of messages published so far on
each publisher, the list of transforms broadcast to the tf tree, and the
list of calls made into the SDK wrapper.  Each member function of the node
becomes a Lean function on `NodeState`.
-/

namespace AsaRos

/-- A file-system path, as a plain string. -/
abbrev Path := String

/-- Opaque payload standing for an `Eigen::Affine3d` pose.  The node never
computes with poses; it only carries them from the SDK callback into the
published message and the tf broadcast, so the payload is an abstract tag. -/
structure Affine3d where
  raw : Nat
deriving DecidableEq, Repr

/-- A `sensor_msgs::Image`: header stamp plus opaque payload. -/
structure Image where
  stamp : Nat
  raw : Nat
deriving DecidableEq, Repr

/-- A `sensor_msgs::CameraInfo`: header stamp plus opaque payload. -/
structure CameraInfo where
  stamp : Nat
  raw : Nat
deriving DecidableEq, Repr

/-- A `geometry_msgs::TransformStamped` as returned by a tf-buffer lookup. -/
structure TransformStamped where
  parent : String
  child : String
  stamp : Nat
  raw : Nat
deriving DecidableEq, Repr

/-- An `asa_ros_msgs::FoundAnchor` message: anchor ID and anchor-in-world pose. -/
structure FoundAnchorMsg where
  anchor_id : String
  anchor_in_world_frame : Affine3d
deriving DecidableEq, Repr

/-- An `asa_ros_msgs::CreatedAnchor` message: success flag, anchor ID, reason. -/
structure CreatedAnchorMsg where
  success : Bool
  anchor_id : String
  reason : String
deriving DecidableEq, Repr

/-- An `asa_ros_msgs::CreateAnchorFeedback` message.  The two progress values
are floats in the C++ message; the node never computes with them, it only
copies them from the SDK callback into the message, so they are carried as
opaque payloads. -/
structure CreateAnchorFeedbackMsg where
  ready_for_create_progress : Nat
  recommended_for_create_progress : Nat
  user_feedback : String
deriving DecidableEq, Repr

/-- A call made into the external `AzureSpatialAnchorsInterface` wrapper. -/
inductive InterfaceEvent where
  /-- A synchronized frame (image, camera info, camera-in-world transform)
  forwarded to the SDK. -/
  | addFrame (image : Image) (camera_info : CameraInfo)
      (transform : TransformStamped) : InterfaceEvent
  /-- A query for a comma-separated list of anchor IDs. -/
  | startQuery (anchor_ids : String) : InterfaceEvent
  /-- A reset of the SDK session. -/
  | reset : InterfaceEvent
deriving DecidableEq, Repr

/-- The state of the `AsaRosNode`, member fields of the class together with
the externally visible effect traces (published messages, tf broadcasts,
SDK calls) and an explicit file system. -/
structure NodeState where
  /-- The file system: contents of each path, `none` when the file is absent. -/
  fs : Path → Option String
  /-- The tf buffer: transform between a target and a source frame at a
  timestamp, `none` when the lookup fails. -/
  tf_buffer_ : String → String → Nat → Option TransformStamped
  /-- Path to the anchor-ID cache, defaults to `~/.ros/last_anchor_id`. -/
  last_anchor_cache_path_ : Path
  /-- Comma-separated cache of the anchors currently being queried; used by
  `resetCallback` (but not `resetCompletelyCallback`) to re-track them. -/
  anchor_ids_ : String
  /-- Whether found-anchor transforms are broadcast on the tf tree. -/
  broadcast_anchor_tf_ : Bool
  /-- Whether the approximate-time synchronizer is used instead of the exact one. -/
  use_approx_sync_policy_ : Bool
  /-- Whether the anchor ID to query is read from the cache file at startup. -/
  query_last_anchor_id_from_cache_ : Bool
  /-- Fixed world frame for transform lookups. -/
  world_frame_id_ : String
  /-- Camera frame for transform lookups. -/
  camera_frame_id_ : String
  /-- Timestamp of the most recent processed frame. -/
  prev_frame_timestamp_ : Nat
  /-- Messages published so far on `found_anchor_pub_`. -/
  found_anchor_pub_ : List FoundAnchorMsg
  /-- Messages published so far on `created_anchor_pub_`. -/
  created_anchor_pub_ : List CreatedAnchorMsg
  /-- Messages published so far on `feedback_pub_`. -/
  feedback_pub_ : List CreateAnchorFeedbackMsg
  /-- Anchor transforms broadcast so far via the static transform broadcaster. -/
  tf_broadcasts : List FoundAnchorMsg
  /-- Calls made so far into the `AzureSpatialAnchorsInterface`. -/
  interface_events : List InterfaceEvent
  /-- Whether the approximate-time synchronizer object has been constructed
  (the `unique_ptr image_info_approx_sync_` is non-null). -/
  image_info_approx_sync_ : Bool
  /-- Whether the exact `TimeSynchronizer` object has been constructed
  (the `unique_ptr image_info_sync_` is non-null). -/
  image_info_sync_ : Bool

/-- ROS parameters read by `initFromRosParams`; `none` models a parameter
that was not set, in which case the documented default applies. -/
structure RosParams where
  broadcast_anchor_tf : Option Bool
  use_approx_sync_policy : Option Bool
  query_last_anchor_id_from_cache : Option Bool
  anchor_id : Option String
  last_anchor_cache_path : Option Path
deriving Repr

/-- Modelled from the spec: body of `AsaRosNode::convertIdVectorToString`
(declared in the header, defined in the missing translation unit).  Per the
header comment it "converts a vector of IDs into a single comma-separated
string, of the sort expected by `AsaRosNode::queryAnchors()`": the elements
in order, a comma between consecutive elements, mirroring the usual
first-element-bare, comma-before-each-subsequent-element loop. -/
def convertIdVectorToString (vec : List String) : String :=
  match vec with
  | [] => ""
  | x :: xs => xs.foldl (fun acc s => acc ++ "," ++ s) x

/-- The spec's words for `convertIdVectorToString`, stated independently of
the loop shape: joining the vector's elements in order, separated by commas. -/
def specCommaJoin : List String → String
  | [] => ""
  | [x] => x
  | x :: y :: xs => x ++ "," ++ specCommaJoin (y :: xs)

/-- Number of comma characters in a string. -/
def commaCount (s : String) : Nat :=
  s.data.count ','

/-- Modelled from the spec: body of `AsaRosNode::readCachedAnchorId`
(missing translation unit).  Reads the anchor ID from the cache file at
`last_anchor_cache_path_`; an absent file yields the empty string. -/
def readCachedAnchorId (st : NodeState) : String :=
  (st.fs st.last_anchor_cache_path_).getD ""

/-- Modelled from the spec: body of `AsaRosNode::storeAnchorIdInCache`
(missing translation unit).  Writes the created anchor ID to the cache file
at `last_anchor_cache_path_`, replacing any previous contents, and reports
success. -/
def storeAnchorIdInCache (st : NodeState) (created_anchor_id : String) :
    Bool × NodeState :=
  (true,
   { st with
      fs := fun p =>
        if p = st.last_anchor_cache_path_ then some created_anchor_id
        else st.fs p })

/-- Modelled from the spec: body of `AsaRosNode::queryAnchors` (missing
translation unit).  Per the header comment it "queries COMMA-SEPARATED list
of anchor IDs, and caches them in case the reset function/service is
called": the string is stored in `anchor_ids_` and the query is issued to
the SDK wrapper. -/
def queryAnchors (st : NodeState) (anchor_ids : String) : Bool × NodeState :=
  (true,
   { st with
      anchor_ids_ := anchor_ids
      interface_events :=
        st.interface_events ++ [InterfaceEvent.startQuery anchor_ids] })

/-- Modelled from the spec: body of `AsaRosNode::anchorCreatedCallback`
(missing translation unit).  Publishes a `CreatedAnchor` message carrying
the reported success flag, anchor ID and reason on `created_anchor_pub_`,
and on success automatically stores the created anchor ID in the cache
file. -/
def anchorCreatedCallback (st : NodeState) (success : Bool)
    (anchor_id : String) (reason : String) : NodeState :=
  let st1 :=
    { st with
        created_anchor_pub_ :=
          st.created_anchor_pub_ ++
            [{ success := success, anchor_id := anchor_id, reason := reason }] }
  if success then (storeAnchorIdInCache st1 anchor_id).2 else st1

/-- Modelled from the spec: body of `AsaRosNode::anchorFoundCallback`
(missing translation unit).  Publishes a `FoundAnchor` message carrying the
reported anchor ID and anchor-in-world pose on `found_anchor_pub_`, and
broadcasts the anchor transform on the tf tree exactly when
`broadcast_anchor_tf_` is set. -/
def anchorFoundCallback (st : NodeState) (anchor_id : String)
    (anchor_in_world_frame : Affine3d) : NodeState :=
  let msg : FoundAnchorMsg :=
    { anchor_id := anchor_id, anchor_in_world_frame := anchor_in_world_frame }
  let st1 := { st with found_anchor_pub_ := st.found_anchor_pub_ ++ [msg] }
  if st1.broadcast_anchor_tf_ then
    { st1 with tf_broadcasts := st1.tf_broadcasts ++ [msg] }
  else st1

/-- Modelled from the spec: body of `AsaRosNode::createAnchorFeedbackCallback`
(missing translation unit).  Publishes a `CreateAnchorFeedback` message
carrying the two progress values and the user-feedback string on
`feedback_pub_`. -/
def createAnchorFeedbackCallback (st : NodeState)
    (ready_for_create_progress recommended_for_create_progress : Nat)
    (user_feedback : String) : NodeState :=
  { st with
      feedback_pub_ :=
        st.feedback_pub_ ++
          [{ ready_for_create_progress := ready_for_create_progress
             recommended_for_create_progress := recommended_for_create_progress
             user_feedback := user_feedback }] }

/-- Modelled from the spec: body of `AsaRosNode::imageAndInfoCallback`
(missing translation unit).  For a synchronized image and camera-info pair,
looks up the transform between `world_frame_id_` and `camera_frame_id_` at
the frame's timestamp in the tf buffer; on success forwards the image, the
camera info and the transform into the `AzureSpatialAnchorsInterface` and
records the frame's timestamp in `prev_frame_timestamp_`. -/
def imageAndInfoCallback (st : NodeState) (image : Image)
    (camera_info : CameraInfo) : NodeState :=
  match st.tf_buffer_ st.world_frame_id_ st.camera_frame_id_ image.stamp with
  | some transform =>
      { st with
          interface_events :=
            st.interface_events ++
              [InterfaceEvent.addFrame image camera_info transform]
          prev_frame_timestamp_ := image.stamp }
  | none => st

/-- Modelled from the spec: body of `AsaRosNode::resetCallback` (missing
translation unit).  Resets the SDK session and then, per the header comment
on `queryAnchors`, automatically re-tracks the previously queried anchors by
re-issuing the query for the cached `anchor_ids_`. -/
def resetCallback (st : NodeState) : NodeState :=
  let st1 := { st with interface_events := st.interface_events ++ [InterfaceEvent.reset] }
  (queryAnchors st1 st1.anchor_ids_).2

/-- Modelled from the spec: body of `AsaRosNode::resetCompletelyCallback`
(missing translation unit).  Resets the SDK session without re-tracking the
previously queried anchors. -/
def resetCompletelyCallback (st : NodeState) : NodeState :=
  { st with interface_events := st.interface_events ++ [InterfaceEvent.reset] }

/-- Modelled from the spec: body of `AsaRosNode::initFromRosParams` (missing
translation unit).  Reads the configuration flags with their documented
defaults (`broadcast_anchor_tf` defaults to true), sets the cache path
(default `~/.ros/last_anchor_id`), constructs exactly one of the two message
synchronizers according to `use_approx_sync_policy_`, and determines the
anchor ID to query: from the cache file when
`query_last_anchor_id_from_cache_` is set, otherwise the manually provided
`anchor_id` parameter; a nonempty ID is then queried. -/
def initFromRosParams (params : RosParams) (st : NodeState) : NodeState :=
  let approx := params.use_approx_sync_policy.getD false
  let st1 :=
    { st with
        broadcast_anchor_tf_ := params.broadcast_anchor_tf.getD true
        use_approx_sync_policy_ := approx
        query_last_anchor_id_from_cache_ :=
          params.query_last_anchor_id_from_cache.getD false
        last_anchor_cache_path_ :=
          params.last_anchor_cache_path.getD "~/.ros/last_anchor_id"
        image_info_approx_sync_ := approx
        image_info_sync_ := !approx }
  let anchor_id :=
    if st1.query_last_anchor_id_from_cache_ then readCachedAnchorId st1
    else params.anchor_id.getD ""
  if anchor_id = "" then st1 else (queryAnchors st1 anchor_id).2

/-- A convenient fully concrete node state, used to instantiate theorems. -/
def initialState : NodeState where
  fs := fun _ => none
  tf_buffer_ := fun _ _ _ => none
  last_anchor_cache_path_ := "~/.ros/last_anchor_id"
  anchor_ids_ := ""
  broadcast_anchor_tf_ := true
  use_approx_sync_policy_ := false
  query_last_anchor_id_from_cache_ := false
  world_frame_id_ := "world"
  camera_frame_id_ := "camera"
  prev_frame_timestamp_ := 0
  found_anchor_pub_ := []
  created_anchor_pub_ := []
  feedback_pub_ := []
  tf_broadcasts := []
  interface_events := []
  image_info_approx_sync_ := false
  image_info_sync_ := false

lemma commaCount_append (a b : String) :
    commaCount (a ++ b) = commaCount a + commaCount b := by
  simp [commaCount, String.data_append, List.count_append]

lemma commaCount_eq_zero_of_not_mem {s : String} (h : ',' ∉ s.data) :
    commaCount s = 0 := by
  simp [commaCount, List.count_eq_zero]
  exact h

lemma specCommaJoin_cons_cons (x y : String) (xs : List String) :
    specCommaJoin (x :: y :: xs) = x ++ "," ++ specCommaJoin (y :: xs) := by
  rfl

lemma foldl_comma_eq_specCommaJoin (xs : List String) :
    ∀ x : String,
      xs.foldl (fun acc s => acc ++ "," ++ s) x = specCommaJoin (x :: xs) := by
  induction xs with
  | nil => intro x; rfl
  | cons y ys ih =>
      intro x
      have step :
          (y :: ys).foldl (fun acc s => acc ++ "," ++ s) x =
            ys.foldl (fun acc s => acc ++ "," ++ s) (x ++ "," ++ y) := rfl
      rw [step, ih (x ++ "," ++ y)]
      cases ys with
      | nil => rfl
      | cons z zs =>
          rw [specCommaJoin_cons_cons, specCommaJoin_cons_cons,
            specCommaJoin_cons_cons]
          simp [String.append_assoc]

lemma convertIdVectorToString_eq_specCommaJoin (vec : List String) :
    convertIdVectorToString vec = specCommaJoin vec := by
  cases vec with
  | nil => rfl
  | cons x xs => exact foldl_comma_eq_specCommaJoin xs x

lemma commaCount_comma : commaCount "," = 1 := by
  decide

lemma commaCount_specCommaJoin (vec : List String)
    (h : ∀ s ∈ vec, ',' ∉ s.data) :
    commaCount (specCommaJoin vec) = vec.length - 1 := by
  induction vec with
  | nil => simp [specCommaJoin, commaCount]
  | cons x xs ih =>
      cases xs with
      | nil =>
          have hx : ',' ∉ x.data := h x (by simp)
          simp [specCommaJoin, commaCount_eq_zero_of_not_mem hx]
      | cons y ys =>
          have hx : ',' ∉ x.data := h x (by simp)
          have hrest : ∀ s ∈ y :: ys, ',' ∉ s.data := by
            intro s hs
            exact h s (List.mem_cons_of_mem x hs)
          rw [specCommaJoin_cons_cons, commaCount_append, commaCount_append,
            commaCount_eq_zero_of_not_mem hx, commaCount_comma, ih hrest]
          simp [List.length_cons]
          omega

/-- C1: for every successfully created anchor, `anchorCreatedCallback`
performs the `storeAnchorIdInCache` write with that anchor ID, and the cache
file at `last_anchor_cache_path_` afterwards contains exactly that ID. -/
theorem anchorCreated_stores_id_in_cache (st : NodeState)
    (anchor_id reason : String) :
    (anchorCreatedCallback st true anchor_id reason).fs
        st.last_anchor_cache_path_ = some anchor_id ∧
    readCachedAnchorId (anchorCreatedCallback st true anchor_id reason) =
      anchor_id ∧
    anchorCreatedCallback st true anchor_id reason =
      (storeAnchorIdInCache
        { st with
            created_anchor_pub_ :=
              st.created_anchor_pub_ ++
                [{ success := true, anchor_id := anchor_id, reason := reason }] }
        anchor_id).2 := by
  refine ⟨?_, ?_, rfl⟩ <;>
    simp [anchorCreatedCallback, storeAnchorIdInCache, readCachedAnchorId]

/-- C2: when the `query_last_anchor_id_from_cache` parameter is set to true,
initialization reads the anchor ID from the cache file (the value
`readCachedAnchorId` returns on the configured state) and issues the query
for that ID; the manually provided `anchor_id` parameter is ignored. -/
theorem init_queries_cached_anchor_id (params : RosParams) (st : NodeState)
    (h : params.query_last_anchor_id_from_cache = some true)
    (hne :
      (st.fs (params.last_anchor_cache_path.getD "~/.ros/last_anchor_id")).getD
          "" ≠ "") :
    (initFromRosParams params st).interface_events =
      st.interface_events ++
        [InterfaceEvent.startQuery
          ((st.fs
              (params.last_anchor_cache_path.getD
                "~/.ros/last_anchor_id")).getD "")] ∧
    ∀ m : String,
      initFromRosParams { params with anchor_id := some m } st =
        initFromRosParams params st := by
  constructor
  · simp [initFromRosParams, h, readCachedAnchorId, queryAnchors, hne]
  · intro m
    simp [initFromRosParams, h, readCachedAnchorId]

/-- Witness for C2 at a concrete parameter set and state. -/
theorem init_queries_cached_anchor_id_witness :
    (initFromRosParams
        { broadcast_anchor_tf := none, use_approx_sync_policy := none,
          query_last_anchor_id_from_cache := some true,
          anchor_id := some "manual", last_anchor_cache_path := none }
        { initialState with
            fs := fun p =>
              if p = "~/.ros/last_anchor_id" then some "cached-id"
              else none }).interface_events =
      [InterfaceEvent.startQuery "cached-id"] := by
  have h :=
    init_queries_cached_anchor_id
      { broadcast_anchor_tf := none, use_approx_sync_policy := none,
        query_last_anchor_id_from_cache := some true,
        anchor_id := some "manual", last_anchor_cache_path := none }
      { initialState with
          fs := fun p =>
            if p = "~/.ros/last_anchor_id" then some "cached-id" else none }
      rfl (by simp [initialState])
  simpa [initialState] using h.1

/-- C3: `convertIdVectorToString` joins the vector's elements in order
separated by commas (it agrees with the direct comma-join of the spec's
words); when no element itself contains a comma the result has exactly
`n - 1` commas for a vector of `n` elements; and batch querying passes the
comma-separated string to `queryAnchors`, which records it. -/
theorem convertIdVectorToString_comma_joins (vec : List String)
    (st : NodeState) :
    convertIdVectorToString vec = specCommaJoin vec ∧
    ((∀ s ∈ vec, ',' ∉ s.data) →
      commaCount (convertIdVectorToString vec) = vec.length - 1) ∧
    (queryAnchors st (convertIdVectorToString vec)).2.anchor_ids_ =
      convertIdVectorToString vec := by
  refine ⟨convertIdVectorToString_eq_specCommaJoin vec, ?_, rfl⟩
  intro h
  rw [convertIdVectorToString_eq_specCommaJoin]
  exact commaCount_specCommaJoin vec h

/-- Witness for C3 at a concrete three-element vector. -/
theorem convertIdVectorToString_comma_joins_witness :
    convertIdVectorToString ["a1", "b2", "c3"] =
      specCommaJoin ["a1", "b2", "c3"] ∧
    commaCount (convertIdVectorToString ["a1", "b2", "c3"]) = 2 := by
  have h := convertIdVectorToString_comma_joins ["a1", "b2", "c3"] initialState
  exact ⟨h.1, h.2.1 (by decide)⟩

/-- C4: every asynchronous SDK result is republished as a ROS message:
`anchorFoundCallback` publishes a `FoundAnchor` message with the reported
anchor ID and pose on `found_anchor_pub_`, `anchorCreatedCallback`
publishes a `CreatedAnchor` message with the reported success flag, anchor
ID and reason on `created_anchor_pub_`, and `createAnchorFeedbackCallback`
publishes a `CreateAnchorFeedback` message with the two progress values and
the user-feedback string on `feedback_pub_`. -/
theorem sdk_results_republished (st : NodeState) (success : Bool)
    (anchor_id reason user_feedback : String) (pose : Affine3d)
    (p1 p2 : Nat) :
    (anchorFoundCallback st anchor_id pose).found_anchor_pub_ =
      st.found_anchor_pub_ ++
        [{ anchor_id := anchor_id, anchor_in_world_frame := pose }] ∧
    (anchorCreatedCallback st success anchor_id reason).created_anchor_pub_ =
      st.created_anchor_pub_ ++
        [{ success := success, anchor_id := anchor_id, reason := reason }] ∧
    (createAnchorFeedbackCallback st p1 p2 user_feedback).feedback_pub_ =
      st.feedback_pub_ ++
        [{ ready_for_create_progress := p1,
           recommended_for_create_progress := p2,
           user_feedback := user_feedback }] := by
  refine ⟨?_, ?_, rfl⟩
  · simp only [anchorFoundCallback]
    split <;> rfl
  · simp only [anchorCreatedCallback]
    split <;> rfl

/-- C5: for a synchronized image and camera-info pair, when the tf-buffer
lookup between `world_frame_id_` and `camera_frame_id_` at the frame's
timestamp succeeds, the node forwards the image, the camera info and the
looked-up transform into the `AzureSpatialAnchorsInterface` and records the
frame's timestamp in `prev_frame_timestamp_`. -/
theorem imageAndInfo_forwards_frame (st : NodeState) (image : Image)
    (camera_info : CameraInfo) (transform : TransformStamped)
    (h : st.tf_buffer_ st.world_frame_id_ st.camera_frame_id_ image.stamp =
      some transform) :
    (imageAndInfoCallback st image camera_info).interface_events =
      st.interface_events ++
        [InterfaceEvent.addFrame image camera_info transform] ∧
    (imageAndInfoCallback st image camera_info).prev_frame_timestamp_ =
      image.stamp := by
  simp [imageAndInfoCallback, h]

/-- Witness for C5 at a concrete state whose tf buffer answers the lookup. -/
theorem imageAndInfo_forwards_frame_witness :
    (imageAndInfoCallback
        { initialState with
            tf_buffer_ := fun _ _ _ =>
              some { parent := "world", child := "camera", stamp := 7,
                     raw := 0 } }
        { stamp := 7, raw := 1 } { stamp := 7, raw := 2 }).interface_events =
      [InterfaceEvent.addFrame { stamp := 7, raw := 1 } { stamp := 7, raw := 2 }
        { parent := "world", child := "camera", stamp := 7, raw := 0 }] ∧
    (imageAndInfoCallback
        { initialState with
            tf_buffer_ := fun _ _ _ =>
              some { parent := "world", child := "camera", stamp := 7,
                     raw := 0 } }
        { stamp := 7, raw := 1 } { stamp := 7, raw := 2 }).prev_frame_timestamp_ =
      7 := by
  have h :=
    imageAndInfo_forwards_frame
      { initialState with
          tf_buffer_ := fun _ _ _ =>
            some { parent := "world", child := "camera", stamp := 7, raw := 0 } }
      { stamp := 7, raw := 1 } { stamp := 7, raw := 2 }
      { parent := "world", child := "camera", stamp := 7, raw := 0 } rfl
  simpa [initialState] using h

/-- C6: initialization constructs exactly one synchronizer, selected by
`use_approx_sync_policy_`: the approximate-time synchronizer is constructed
precisely when the flag is true, the exact `TimeSynchronizer` precisely when
it is false, and never both or neither. -/
theorem exactly_one_synchronizer (params : RosParams) (st : NodeState) :
    (initFromRosParams params st).image_info_approx_sync_ =
      (initFromRosParams params st).use_approx_sync_policy_ ∧
    (initFromRosParams params st).image_info_sync_ =
      !(initFromRosParams params st).use_approx_sync_policy_ ∧
    (initFromRosParams params st).image_info_approx_sync_ ≠
      (initFromRosParams params st).image_info_sync_ := by
  have hb : ∀ b : Bool, b ≠ !b := by decide
  simp only [initFromRosParams, queryAnchors]
  split <;> (try split) <;> exact ⟨rfl, rfl, hb _⟩

/-- C7: only one file is ever touched.  Every operation of the node leaves
the contents of every path other than `last_anchor_cache_path_` unchanged
(the writers `storeAnchorIdInCache` and `anchorCreatedCallback` write only
that path, and no other operation writes any file), and `readCachedAnchorId`
depends only on the contents of that single path: two states agreeing on
the cache path and its contents read the same ID. -/
theorem only_cache_file_touched (st st2 : NodeState) (params : RosParams)
    (p : Path) (s anchor_id reason user_feedback : String) (success : Bool)
    (pose : Affine3d) (image : Image) (camera_info : CameraInfo)
    (p1 p2 : Nat) (hp : p ≠ st.last_anchor_cache_path_)
    (hpath : st2.last_anchor_cache_path_ = st.last_anchor_cache_path_)
    (hcontent :
      st2.fs st2.last_anchor_cache_path_ = st.fs st.last_anchor_cache_path_) :
    (storeAnchorIdInCache st s).2.fs p = st.fs p ∧
    (anchorCreatedCallback st success anchor_id reason).fs p = st.fs p ∧
    (anchorFoundCallback st anchor_id pose).fs = st.fs ∧
    (createAnchorFeedbackCallback st p1 p2 user_feedback).fs = st.fs ∧
    (imageAndInfoCallback st image camera_info).fs = st.fs ∧
    (queryAnchors st s).2.fs = st.fs ∧
    (resetCallback st).fs = st.fs ∧
    (resetCompletelyCallback st).fs = st.fs ∧
    (initFromRosParams params st).fs = st.fs ∧
    readCachedAnchorId st2 = readCachedAnchorId st := by
  refine ⟨?_, ?_, ?_, rfl, ?_, rfl, rfl, rfl, ?_, ?_⟩
  · simp [storeAnchorIdInCache, hp]
  · simp only [anchorCreatedCallback]
    split
    · simp [storeAnchorIdInCache, hp]
    · rfl
  · simp only [anchorFoundCallback]
    split <;> rfl
  · simp only [imageAndInfoCallback]
    split <;> rfl
  · simp only [initFromRosParams, queryAnchors]
    split <;> (try split) <;> rfl
  · simp only [readCachedAnchorId]
    rw [hcontent]

/-- Witness for C7 at concrete states and a concrete foreign path. -/
theorem only_cache_file_touched_witness :
    (storeAnchorIdInCache initialState "id0").2.fs "/etc/passwd" =
      initialState.fs "/etc/passwd" ∧
    (anchorCreatedCallback initialState true "id0" "ok").fs "/etc/passwd" =
      initialState.fs "/etc/passwd" ∧
    readCachedAnchorId
        { initialState with anchor_ids_ := "other" } =
      readCachedAnchorId initialState := by
  have h :=
    only_cache_file_touched initialState
      { initialState with anchor_ids_ := "other" }
      { broadcast_anchor_tf := none, use_approx_sync_policy := none,
        query_last_anchor_id_from_cache := none, anchor_id := none,
        last_anchor_cache_path := none }
      "/etc/passwd" "id0" "id0" "ok" "fb" true { raw := 0 }
      { stamp := 0, raw := 0 } { stamp := 0, raw := 0 } 0 0
      (by simp [initialState]) rfl rfl
  exact ⟨h.1, h.2.1, h.2.2.2.2.2.2.2.2.2⟩

/-- C8: cache round-trip.  If `storeAnchorIdInCache s` reports success then
a subsequent `readCachedAnchorId` with no intervening store returns `s`. -/
theorem cache_round_trip (st : NodeState) (s : String)
    (h : (storeAnchorIdInCache st s).1 = true) :
    readCachedAnchorId (storeAnchorIdInCache st s).2 = s := by
  simp [readCachedAnchorId, storeAnchorIdInCache]

/-- Witness for C8 at a concrete state and ID. -/
theorem cache_round_trip_witness :
    (storeAnchorIdInCache initialState "anchor-42").1 = true ∧
    readCachedAnchorId (storeAnchorIdInCache initialState "anchor-42").2 =
      "anchor-42" :=
  ⟨rfl, cache_round_trip initialState "anchor-42" rfl⟩

/-- C9: `queryAnchors` caches the comma-separated ID string in `anchor_ids_`;
after such a query, `resetCallback` resets the session and re-issues the
query for exactly those cached IDs, whereas `resetCompletelyCallback` resets
without re-issuing any query. -/
theorem reset_retracks_cached_queries (st : NodeState) (anchor_ids : String) :
    (queryAnchors st anchor_ids).2.anchor_ids_ = anchor_ids ∧
    (resetCallback st).interface_events =
      st.interface_events ++
        [InterfaceEvent.reset, InterfaceEvent.startQuery st.anchor_ids_] ∧
    (resetCallback (queryAnchors st anchor_ids).2).interface_events =
      st.interface_events ++
        [InterfaceEvent.startQuery anchor_ids, InterfaceEvent.reset,
         InterfaceEvent.startQuery anchor_ids] ∧
    (resetCompletelyCallback (queryAnchors st anchor_ids).2).interface_events =
      st.interface_events ++
        [InterfaceEvent.startQuery anchor_ids, InterfaceEvent.reset] := by
  refine ⟨rfl, ?_, ?_, ?_⟩ <;>
    simp [resetCallback, resetCompletelyCallback, queryAnchors]

/-- C10: `broadcast_anchor_tf_` defaults to true when the parameter is not
set, and the anchor transform reported in `anchorFoundCallback` is broadcast
to the tf tree if and only if `broadcast_anchor_tf_` is true. -/
theorem broadcast_anchor_tf_default_and_gates (params : RosParams)
    (st : NodeState) (anchor_id : String) (pose : Affine3d)
    (h : params.broadcast_anchor_tf = none) :
    (initFromRosParams params st).broadcast_anchor_tf_ = true ∧
    (anchorFoundCallback st anchor_id pose).tf_broadcasts =
      st.tf_broadcasts ++
        (if st.broadcast_anchor_tf_ then
          [{ anchor_id := anchor_id, anchor_in_world_frame := pose }]
         else []) := by
  constructor
  · simp only [initFromRosParams, queryAnchors, h]
    split <;> (try split) <;> rfl
  · simp only [anchorFoundCallback]
    split <;> simp_all

/-- Witness for C10 at a concrete parameter set and state. -/
theorem broadcast_anchor_tf_default_and_gates_witness :
    (initFromRosParams
        { broadcast_anchor_tf := none, use_approx_sync_policy := none,
          query_last_anchor_id_from_cache := none, anchor_id := none,
          last_anchor_cache_path := none }
        initialState).broadcast_anchor_tf_ = true ∧
    (anchorFoundCallback initialState "a" { raw := 3 }).tf_broadcasts =
      [{ anchor_id := "a", anchor_in_world_frame := { raw := 3 } }] := by
  have h :=
    broadcast_anchor_tf_default_and_gates
      { broadcast_anchor_tf := none, use_approx_sync_policy := none,
        query_last_anchor_id_from_cache := none, anchor_id := none,
        last_anchor_cache_path := none }
      initialState "a" { raw := 3 } rfl
  exact ⟨h.1, by simpa [initialState] using h.2⟩

end AsaRos
